import Mathlib

/-!
Verification of the gate-lite gateway against its design specification.

The Python sources under `api/` are shallowly embedded as executable Lean
definitions: pure helpers become Lean functions, the process-wide mutable
state (PKCE state store, JWKS cache) becomes explicit state passing, and
every outbound HTTP call is abstracted as an oracle argument describing the
upstream's behaviour.  Python truthiness, `str.split()`, `str.replace`,
`str.startswith` and `str.lower` are modelled by dedicated helpers that
follow the CPython semantics the code relies on.
-/

namespace GateLite

/-! ### Python semantics helpers -/

/-- Python truthiness of an optional string: `None` and `""` are falsy. -/
def pyTruthyS : Option String → Bool
  | none => false
  | some s => s ≠ ""

/-- `x or y` on an optional string and a fallback (Python `or` keeps the
first truthy operand). -/
def pyOrS (a : Option String) (b : String) : String :=
  match a with
  | none => b
  | some s => if s = "" then b else s

/-- `x or y` where both operands are optional strings. -/
def pyOrOS (a b : Option String) : Option String :=
  match a with
  | none => b
  | some s => if s = "" then b else some s

/-- `if x: use x` — keep an optional string only when it is truthy. -/
def pyKeepTruthy (a : Option String) : Option String :=
  match a with
  | none => none
  | some s => if s = "" then none else some s

/-- `x or []` on an optional list (Python: `None` and `[]` are falsy). -/
def pyOrNil (a : Option (List String)) : List String :=
  match a with
  | none => []
  | some l => l

/-- ASCII lowering of a string, as Python `str.lower()` acts on the ASCII
range used by the header checks. -/
def lowerS (s : String) : String := ⟨s.data.map Char.toLower⟩

/-- Python `str.startswith(pre)`. -/
def pyStartsWith (s pre : String) : Bool := pre.data.isPrefixOf s.data

/-- The characters Python `str.split()` treats as whitespace. -/
def isSpaceC (c : Char) : Bool :=
  c = ' ' || c = '\t' || c = '\n' || c = '\r' || c = '\x0b' || c = '\x0c'

/-- Accumulator pass for `str.split()`: `cur` holds the current word,
reversed. Runs of whitespace produce no empty words. -/
def splitWsAux : List Char → List Char → List (List Char)
  | [], cur => if cur = [] then [] else [cur.reverse]
  | c :: rest, cur =>
      if isSpaceC c then
        if cur = [] then splitWsAux rest [] else cur.reverse :: splitWsAux rest []
      else splitWsAux rest (c :: cur)

/-- Python `str.split()` with no separator: split on whitespace runs,
dropping empty strings. -/
def pySplitWs (s : String) : List String :=
  (splitWsAux s.data []).map (fun l => ⟨l⟩)

/-- One fuel-indexed pass of Python `str.replace`: scan left to right,
replacing every non-overlapping occurrence of `pat` by `new`.  The fuel is
the length of the scanned list, which the wrapper supplies; each step
consumes at least one character, so the guard arm is never reached. -/
def pyReplaceFuel (pat new : List Char) : Nat → List Char → List Char
  | _, [] => []
  | 0, s => s
  | fuel + 1, c :: rest =>
      if pat.isPrefixOf (c :: rest) then
        new ++ pyReplaceFuel pat new fuel (rest.drop (pat.length - 1))
      else
        c :: pyReplaceFuel pat new fuel rest

/-- Python `str.replace(pat, new)` for a non-empty `pat`. -/
def pyReplace (s pat new : String) : String :=
  ⟨pyReplaceFuel pat.data new.data s.data.length s.data⟩

/-- Whether `pat` occurs as a contiguous sublist of `s` (for non-empty
`pat`); used to reason about `pyReplace`. -/
def occursIn (pat : List Char) : List Char → Bool
  | [] => false
  | c :: rest => pat.isPrefixOf (c :: rest) || occursIn pat rest

/-! ### gate_config.py — client registry entries -/

/-- One client registry entry (`ClientCfg` in `gate_config.py`); every
field is optional because the registry is parsed from free-form JSON. -/
structure ClientCfg where
  id : Option String := none
  secret : Option String := none
  allowed_scopes : Option (List String) := none
  default_scope : Option String := none
  audience : Option String := none
deriving DecidableEq, Repr

/-- The registry: a map from logical client name to entry
(`load_client_registry` result), modelled as an association list with
unique keys, looked up with Python `dict.get` semantics. -/
def Registry := List (String × ClientCfg)

/-- Python truthiness of a registry entry dict: the empty dict `{}` is
falsy.  `ClientCfg` identifies a key that is absent with a key that is
`null`, so the all-`none` record stands for the empty dict. -/
def pyTruthyDict (e : ClientCfg) : Bool := e ≠ ({} : ClientCfg)

/-! ### gate_m2m.py — the M2M Client-Credentials broker -/

/-- Body of `POST /gate/token` (`M2MRequest`). -/
structure M2MRequest where
  client : String
  scope : Option String := none
  audience : Option String := none
deriving DecidableEq, Repr

/-- `_clamp_scopes`: keep the requested scopes that are members of the
allowed set, in requested order. -/
def _clamp_scopes (requested allowed : List String) : List String :=
  if requested = [] then []
  else requested.filter (fun s => allowed.contains s)

/-- The form fields of the Client Credentials POST that the broker sends
to the upstream token endpoint (the `data` dict in `broker_m2m_token`).
`scope` and `audience` are present only when set. -/
structure TokenData where
  grant_type : String
  client_id : String
  client_secret : String
  scope : Option String := none
  audience : Option String := none
deriving DecidableEq, Repr

/-- Outcome of the upstream token POST as seen through httpx:
a 2xx JSON body, an HTTP error status (`HTTPStatusError` from
`raise_for_status`), or a network-level failure (`HTTPError`). -/
inductive UpstreamOutcome where
  | ok (body : String)
  | statusError (status : Nat) (body : String)
  | networkError (msg : String)
deriving DecidableEq, Repr

/-- Result of a broker call: a token payload or an `HTTPException`. -/
inductive BrokerResult where
  | success (body : String)
  | httpError (status : Nat) (detail : String)
deriving DecidableEq, Repr

/-- `_auth_guard`: `true` when it raises 401.  A falsy configured key
disables the check; otherwise the presented key must be truthy and equal. -/
def _auth_guard (gateApiKey xApiKey : Option String) : Bool :=
  if ¬ pyTruthyS gateApiKey then false
  else
    match gateApiKey with
    | none => false
    | some g =>
        match xApiKey with
        | none => true
        | some x => x = "" || x ≠ g

/-- The part of `broker_m2m_token` before the upstream POST: the auth
guard, the registry lookup with Python's `if not entry` truthiness check
(a missing or empty entry is 400), the id/secret check, scope resolution
and clamping, and assembly of the form fields.  Returns the
`HTTPException` raised on an early exit, or the `data` dict POSTed. -/
def brokerRequestData (gateApiKey : Option String) (registry : Registry)
    (body : M2MRequest) (xApiKey : Option String) :
    Except BrokerResult TokenData :=
  if _auth_guard gateApiKey xApiKey then
    .error (.httpError 401 "invalid gate api key")
  else
    match List.lookup body.client registry with
    | none => .error (.httpError 400 "unknown client")
    | some entry =>
        if ¬ pyTruthyDict entry then
          .error (.httpError 400 "unknown client")
        else if ¬ pyTruthyS entry.id || ¬ pyTruthyS entry.secret then
          .error (.httpError 500 "client misconfigured (no id/secret)")
        else
          let allowed_scopes := pyOrNil entry.allowed_scopes
          let default_scope := pyOrS entry.default_scope ""
          let req_scopes := pySplitWs (pyOrS body.scope default_scope)
          let final_scopes := _clamp_scopes req_scopes allowed_scopes
          if final_scopes = [] ∧ allowed_scopes ≠ [] then
            .error (.httpError 403 "requested scopes not allowed")
          else
            .ok { grant_type := "client_credentials"
                  client_id := entry.id.getD ""
                  client_secret := entry.secret.getD ""
                  scope := if final_scopes ≠ [] then
                             some (String.intercalate " " final_scopes)
                           else none
                  audience := pyKeepTruthy (pyOrOS body.audience entry.audience) }

/-- `broker_m2m_token`: the full control flow of `POST /gate/token`.
`upstream` abstracts the httpx POST to the token endpoint; its HTTP error
status and body are propagated verbatim, a network failure maps to 502. -/
def broker_m2m_token (gateApiKey : Option String) (registry : Registry)
    (body : M2MRequest) (xApiKey : Option String)
    (upstream : TokenData → UpstreamOutcome) : BrokerResult :=
  match brokerRequestData gateApiKey registry body xApiKey with
  | .error e => e
  | .ok data =>
      match upstream data with
      | .ok respBody => .success respBody
      | .statusError status respBody => .httpError status respBody
      | .networkError msg => .httpError 502 ("hydra unreachable: " ++ msg)

/-! ### token_verify.py — bearer verification with a JWKS cache

The JWKS and the cryptography are abstracted: a key set is the list of key
ids it can verify, a token is its signing key id plus the claims relevant
to the checks, and `python-jose`'s `jwt.decode` is modelled by `_decode`
following its documented behaviour: verify the signature against the key
set, then (with default options) validate the `exp` claim, raising
`ExpiredSignatureError` — a subclass of `JWTError` — when it is in the
past.  The `lru_cache` on `_load_jwks` becomes explicit cache state, and
the httpx fetch of the JWKS endpoint becomes the `upstreamJwks` value. -/

/-- A JSON Web Key Set, abstracted to the ids of the keys it contains. -/
structure Jwks where
  keys : List Nat
deriving DecidableEq, Repr

/-- A parsed bearer token: its signing key id and its claims. -/
structure TokenRec where
  key : Nat
  iss : Option String := none
  exp : Option Nat := none
  payload : String := ""
deriving DecidableEq, Repr

/-- The decoded claim set returned on success. -/
structure Claims where
  iss : Option String
  exp : Option Nat
  payload : String
deriving DecidableEq, Repr

/-- The `jose` errors `_decode` can raise; both are `JWTError`s. -/
inductive JoseError where
  | invalidSignature
  | expiredSignature
deriving DecidableEq, Repr

/-- `_decode`: `jose.jwt.decode(token, jwks, algorithms=["RS256"],
options={"verify_aud": False})`.  Signature verification against the key
set first; then, by jose's default `verify_exp`, an `exp` claim in the
past raises `ExpiredSignatureError` (a `JWTError`). -/
def _decode (now : Nat) (tok : TokenRec) (jwks : Jwks) : Except JoseError Claims :=
  if ¬ jwks.keys.contains tok.key then .error .invalidSignature
  else
    match tok.exp with
    | some e =>
        if e < now then .error .expiredSignature
        else .ok { iss := tok.iss, exp := tok.exp, payload := tok.payload }
    | none => .ok { iss := tok.iss, exp := tok.exp, payload := tok.payload }

/-- `_load_jwks` under `lru_cache(maxsize=1)`: returns the key set, the
new cache state, and the number of network fetches performed (0 or 1). -/
def _load_jwks (upstreamJwks : Jwks) (cache : Option Jwks) :
    Jwks × Option Jwks × Nat :=
  match cache with
  | some j => (j, some j, 0)
  | none => (upstreamJwks, some upstreamJwks, 1)

/-- What a call to `verify_bearer` produces: decoded claims, an
`HTTPException`, or an uncaught Python `IndexError` from `split()[1]`. -/
inductive VResult where
  | ok (claims : Claims)
  | httpError (status : Nat) (detail : String)
  | indexError
deriving DecidableEq, Repr

/-- Full observable outcome of one `verify_bearer` call: the result, the
final JWKS cache state, and how many JWKS fetches and decode attempts the
call performed. -/
structure VOut where
  result : VResult
  cache : Option Jwks
  fetches : Nat
  decodes : Nat
deriving DecidableEq, Repr

/-- The issuer and expiry checks after a structurally valid decode. -/
def issuerExpChecks (issuer : String) (now : Nat) (claims : Claims) : VResult :=
  if claims.iss ≠ some issuer then .httpError 401 "bad issuer"
  else if claims.exp.getD 0 < now then .httpError 401 "expired"
  else .ok claims

/-- `verify_bearer`: header check, token extraction via `split()[1]`,
first decode against the cached key set, on `JWTError` one
`cache_clear()` plus refetch and one retry, then issuer and expiry
checks.  `tokenOf` abstracts parsing a token string into its contents. -/
def verify_bearer (issuer : String) (now : Nat) (upstreamJwks : Jwks)
    (tokenOf : String → TokenRec) (cache : Option Jwks)
    (authorization : Option String) : VOut :=
  if ¬ pyTruthyS authorization
      ∨ ¬ pyStartsWith (lowerS (authorization.getD "")) "bearer " then
    ⟨.httpError 401 "Missing bearer token", cache, 0, 0⟩
  else
    match (pySplitWs (authorization.getD "")).get? 1 with
    | none => ⟨.indexError, cache, 0, 0⟩
    | some tokStr =>
        let tok := tokenOf tokStr
        match _load_jwks upstreamJwks cache with
        | (jwks1, cache1, f1) =>
          match _decode now tok jwks1 with
          | .ok claims => ⟨issuerExpChecks issuer now claims, cache1, f1, 1⟩
          | .error _ =>
              match _load_jwks upstreamJwks none with
              | (jwks2, cache2, f2) =>
                match _decode now tok jwks2 with
                | .ok claims =>
                    ⟨issuerExpChecks issuer now claims, cache2, f1 + f2, 2⟩
                | .error _ =>
                    ⟨.httpError 401 "invalid token", cache2, f1 + f2, 2⟩

/-! ### pkce.py -/

/-- The urlsafe base64 alphabet used by `base64.urlsafe_b64encode`. -/
def b64chars : List Char :=
  "ABCDEFGHIJKLMNOPQRSTUVWXYZabcdefghijklmnopqrstuvwxyz0123456789-_".toList

/-- The alphabet character for a 6-bit group. -/
def b64char (n : Nat) : Char := b64chars.getD n 'A'

/-- Urlsafe base64 with the `=` padding stripped, over byte values:
`base64.urlsafe_b64encode(data).rstrip(b"=")`. -/
def b64urlNoPad : List Nat → List Char
  | [] => []
  | [b1] => [b64char (b1 / 4), b64char (b1 % 4 * 16)]
  | [b1, b2] =>
      [b64char (b1 / 4), b64char (b1 % 4 * 16 + b2 / 16), b64char (b2 % 16 * 4)]
  | b1 :: b2 :: b3 :: rest =>
      b64char (b1 / 4) :: b64char (b1 % 4 * 16 + b2 / 16) ::
      b64char (b2 % 16 * 4 + b3 / 64) :: b64char (b3 % 64) :: b64urlNoPad rest

/-- `_b64url`: urlsafe base64 of the bytes, padding stripped, as ASCII. -/
def _b64url (data : List Nat) : String := ⟨b64urlNoPad data⟩

/-- `new_code_verifier`: base64url, without padding, of the random bytes
drawn from `secrets.token_bytes`; the randomness is the argument. -/
def new_code_verifier (tokenBytes : List Nat) : String := _b64url tokenBytes

/-- `to_code_challenge_s256`: base64url of the SHA-256 digest of the
ASCII verifier.  `sha256digest` abstracts `hashlib.sha256(·).digest()`,
whose digests are 32 bytes long. -/
def to_code_challenge_s256 (sha256digest : String → List Nat)
    (verifier : String) : String :=
  _b64url (sha256digest verifier)

/-- Modelled from the spec: the independent recomputation
`base64url(SHA-256(verifier))` with padding stripped, written from the
spec's words to compare with the challenge the code sends. -/
def specRecomputedChallenge (sha256digest : String → List Nat)
    (verifier : String) : String :=
  _b64url (sha256digest verifier)

/-! ### oauth_routes.py — PKCE state store and flow -/

/-- `_STATE`: state token → (code verifier, created_at); association list
with unique keys standing for the Python dict. -/
def StateStore := List (String × (String × Nat))

/-- `_save_state`: dict assignment `_STATE[state] = (verifier, now)`. -/
def _save_state (store : StateStore) (state verifier : String) (now : Nat) :
    StateStore :=
  (state, (verifier, now)) :: store.filter (fun e => e.1 ≠ state)

/-- `_pop_state`: `_STATE.pop(state, None)` — look the entry up and
remove it in the same step. -/
def _pop_state (store : StateStore) (state : String) :
    Option (String × Nat) × StateStore :=
  (List.lookup state store, store.filter (fun e => e.1 ≠ state))

/-- The form fields of the authorization-code exchange POST. -/
structure ExchangeData where
  grant_type : String
  code : String
  redirect_uri : String
  client_id : String
  code_verifier : String
deriving DecidableEq, Repr

/-- Outcome of the code-exchange POST: 2xx body or HTTP error status. -/
inductive ExchangeOutcome where
  | ok (body : String)
  | statusError (status : Nat) (body : String)
deriving DecidableEq, Repr

/-- Result of `oauth_callback`. -/
inductive CallbackResult where
  | ok (body : String)
  | httpError (status : Nat) (detail : String)
deriving DecidableEq, Repr

/-- `oauth_login` (`GET /gate/oauth/login`): generate verifier, derive
the S256 challenge, generate the state token from 16 fresh bytes, save
the state, and assemble the authorization-redirect query parameters.
Returns the parameter list (in the order the source builds it) and the
new store.  Randomness is passed in as the byte lists. -/
def oauth_login (clientId redirectUri scope : String) (audience : Option String)
    (sha256digest : String → List Nat) (verifierBytes stateBytes : List Nat)
    (store : StateStore) (now : Nat) :
    List (String × String) × StateStore :=
  let code_verifier := new_code_verifier verifierBytes
  let code_challenge := to_code_challenge_s256 sha256digest code_verifier
  let state := new_code_verifier stateBytes
  let store1 := _save_state store state code_verifier now
  let params := [("client_id", clientId), ("response_type", "code"),
    ("redirect_uri", redirectUri), ("scope", scope), ("state", state),
    ("code_challenge", code_challenge), ("code_challenge_method", "S256")]
  let params1 := match audience with
    | some a => if a ≠ "" then params ++ [("audience", a)] else params
    | none => params
  (params1, store1)

/-- `oauth_callback` (`GET /gate/oauth/callback`): pop the state entry —
400 "Invalid or expired state" when absent — then exchange the code with
the recovered verifier; an upstream HTTP error status becomes a 400
"Token exchange failed". -/
def oauth_callback (clientId redirectUri : String) (store : StateStore)
    (code state : String) (upstream : ExchangeData → ExchangeOutcome) :
    CallbackResult × StateStore :=
  match _pop_state store state with
  | (none, store1) => (.httpError 400 "Invalid or expired state", store1)
  | (some (code_verifier, _created), store1) =>
      let data : ExchangeData :=
        { grant_type := "authorization_code", code := code,
          redirect_uri := redirectUri, client_id := clientId,
          code_verifier := code_verifier }
      match upstream data with
      | .ok body => (.ok body, store1)
      | .statusError _ body =>
          (.httpError 400 ("Token exchange failed: " ++ body), store1)

/-! ### main.py — the reverse proxies -/

/-- An httpx response as the proxies observe it; httpx normalizes header
names to lowercase when iterated. -/
structure HttpxResponse where
  status : Nat
  content : String
  headers : List (String × String)
deriving DecidableEq, Repr

/-- The inbound request as forwarded by the proxies. -/
structure ProxyRequest where
  method : String
  headers : List (String × String)
  body : String
deriving DecidableEq, Repr

/-- Hop-by-hop names stripped from the forwarded request (plus `host`). -/
def reqHopByHop : List String :=
  ["host", "connection", "keep-alive", "proxy-authenticate",
   "proxy-authorization", "te", "trailer", "transfer-encoding", "upgrade"]

/-- Hop-by-hop names stripped from the returned response. -/
def respHopByHop : List String :=
  ["connection", "keep-alive", "proxy-authenticate",
   "proxy-authorization", "te", "trailer", "transfer-encoding", "upgrade"]

/-- `fwd_headers`: drop hop-by-hop request headers, case-insensitively. -/
def fwdHeaders (hs : List (String × String)) : List (String × String) :=
  hs.filter (fun h => ¬ reqHopByHop.contains (lowerS h.1))

/-- `out_headers`: drop hop-by-hop response headers, case-insensitively. -/
def outHeaders (hs : List (String × String)) : List (String × String) :=
  hs.filter (fun h => ¬ respHopByHop.contains (lowerS h.1))

/-- `proxy_authui` (`/authui/{path}`): forward with filtered headers,
return the upstream status and body with filtered response headers. -/
def proxy_authui (req : ProxyRequest)
    (upstream : ProxyRequest → HttpxResponse) : HttpxResponse :=
  let resp := upstream { req with headers := fwdHeaders req.headers }
  { status := resp.status, content := resp.content,
    headers := outHeaders resp.headers }

/-- The `Location` rewrite of `proxy_oauth2`: two guarded `str.replace`
calls, the second tested against the already-rewritten value. -/
def rewriteLocation (loc : String) : String :=
  let loc1 := if pyStartsWith loc "http://hydra:4444" then
      pyReplace loc "http://hydra:4444" "http://localhost:8000/oauth2"
    else loc
  if pyStartsWith loc1 "http://login-consent:3002" then
    pyReplace loc1 "http://login-consent:3002" "http://localhost:8000/authui"
  else loc1

/-- Dict assignment `out_headers["location"] = loc` on a present key. -/
def setHeader (hs : List (String × String)) (k v : String) :
    List (String × String) :=
  hs.map (fun h => if h.1 = k then (k, v) else h)

/-- `loc = out_headers.get("location"); if loc: ... rewrite ...` — a
missing or empty header is left alone. -/
def applyLocationRewrite (hs : List (String × String)) :
    List (String × String) :=
  match List.lookup "location" hs with
  | none => hs
  | some l => if l = "" then hs else setHeader hs "location" (rewriteLocation l)

/-- `proxy_oauth2` (`/oauth2/{path}`): forward with filtered headers,
filter the response headers, rewrite an internal `Location`, and return
the upstream status and body. -/
def proxy_oauth2 (req : ProxyRequest)
    (upstream : ProxyRequest → HttpxResponse) : HttpxResponse :=
  let resp := upstream { req with headers := fwdHeaders req.headers }
  { status := resp.status, content := resp.content,
    headers := applyLocationRewrite (outHeaders resp.headers) }

/-! ## Helper lemmas -/

theorem clamp_nil (r : List String) : _clamp_scopes r [] = [] := by
  cases r <;> simp [_clamp_scopes]

theorem clamp_eq_filter (r a : List String) :
    _clamp_scopes r a = r.filter (fun s => a.contains s) := by
  cases r <;> simp [_clamp_scopes]

/-- An entry with a truthy `id` is a non-empty dict. -/
theorem pyTruthyDict_of_id (entry : ClientCfg)
    (h : pyTruthyS entry.id = true) : pyTruthyDict entry = true := by
  unfold pyTruthyDict
  rw [decide_eq_true_iff]
  intro hc
  rw [hc] at h
  exact absurd h (by decide)

/-! ## Claims about the M2M broker -/

/-- C1 counterexample.  For the registry entry `svc` with `id` and
`secret` set and no `allowed_scopes`, requesting scope `"anything"` does
not produce an upstream POST whose scope parameter is `"anything"`: the
clamp against the empty allowed set drops every scope, so the `data`
dict carries no scope field at all (though no error is raised). -/
theorem c1_counterexample :
    Except.map TokenData.scope (brokerRequestData none
        [("svc", { id := some "i", secret := some "s" })]
        { client := "svc", scope := some "anything" } none)
      = .ok none
    ∧ (Except.ok none : Except BrokerResult (Option String)) ≠
        .ok (some "anything") := by
  refine ⟨rfl, ?_⟩
  intro h
  injection h with h1
  cases h1

/-- C1 (amended): for every registry entry whose allowed-scope set is
empty or unset, BrokerToken never fails with ScopesNotAllowed, but the
resolved requested scopes are not forwarded: the clamp against the empty
allowed set drops them all, and the upstream Client Credentials POST
carries no scope parameter. -/
theorem c1_empty_allowed_drops_scopes (gk xk : Option String)
    (registry : Registry) (body : M2MRequest) (entry : ClientCfg)
    (hguard : _auth_guard gk xk = false)
    (hlook : List.lookup body.client registry = some entry)
    (hid : pyTruthyS entry.id = true)
    (hsec : pyTruthyS entry.secret = true)
    (hallowed : pyOrNil entry.allowed_scopes = []) :
    brokerRequestData gk registry body xk =
      .ok { grant_type := "client_credentials",
            client_id := entry.id.getD "",
            client_secret := entry.secret.getD "",
            scope := none,
            audience := pyKeepTruthy (pyOrOS body.audience entry.audience) }
    ∧ brokerRequestData gk registry body xk ≠
        .error (.httpError 403 "requested scopes not allowed") := by
  have hmain : brokerRequestData gk registry body xk =
      .ok { grant_type := "client_credentials",
            client_id := entry.id.getD "",
            client_secret := entry.secret.getD "",
            scope := none,
            audience := pyKeepTruthy (pyOrOS body.audience entry.audience) } := by
    unfold brokerRequestData
    rw [hlook]
    simp [hguard, hid, hsec, hallowed, clamp_nil, pyTruthyDict_of_id entry hid]
  refine ⟨hmain, ?_⟩
  rw [hmain]
  intro h
  cases h

/-- C1 witness: the amended statement at the concrete counterexample
registry and request. -/
theorem c1_witness :
    brokerRequestData none [("svc", { id := some "i", secret := some "s" })]
        { client := "svc", scope := some "anything" } none =
      .ok { grant_type := "client_credentials", client_id := "i",
            client_secret := "s", scope := none, audience := none }
    ∧ brokerRequestData none
        [("svc", { id := some "i", secret := some "s" })]
        { client := "svc", scope := some "anything" } none ≠
        .error (.httpError 403 "requested scopes not allowed") :=
  c1_empty_allowed_drops_scopes none none
    [("svc", { id := some "i", secret := some "s" })]
    { client := "svc", scope := some "anything" }
    { id := some "i", secret := some "s" }
    (by decide) (by decide) (by decide) (by decide) (by decide)

/-- C2: with a non-empty allowed set, the clamped scope list is the
whitespace-split requested list filtered to members of the allowed set in
requested order; allowed `{"read","write"}` with request
`"read write delete"` yields the scope field `"read write"`; and whenever
the clamp comes out empty against a non-empty allowed set the broker
fails with 403 "requested scopes not allowed" without calling upstream. -/
theorem c2_scope_clamping :
    (∀ (reqString : String) (allowed : List String),
      _clamp_scopes (pySplitWs reqString) allowed =
        (pySplitWs reqString).filter (fun s => allowed.contains s))
    ∧ (Except.map TokenData.scope (brokerRequestData none
          [("svc", { id := some "i", secret := some "s",
                     allowed_scopes := some ["read", "write"] })]
          { client := "svc", scope := some "read write delete" } none)
        = .ok (some "read write"))
    ∧ (∀ (gk xk : Option String) (registry : Registry) (body : M2MRequest)
          (entry : ClientCfg) (upstream : TokenData → UpstreamOutcome),
        _auth_guard gk xk = false →
        List.lookup body.client registry = some entry →
        pyTruthyS entry.id = true → pyTruthyS entry.secret = true →
        pyOrNil entry.allowed_scopes ≠ [] →
        _clamp_scopes (pySplitWs (pyOrS body.scope (pyOrS entry.default_scope "")))
          (pyOrNil entry.allowed_scopes) = [] →
        broker_m2m_token gk registry body xk upstream =
          .httpError 403 "requested scopes not allowed") := by
  refine ⟨fun r a => clamp_eq_filter _ _, rfl, ?_⟩
  intro gk xk registry body entry upstream hguard hlook hid hsec hne hclamp
  unfold broker_m2m_token brokerRequestData
  rw [hlook]
  simp [hguard, hid, hsec, hclamp, hne, pyTruthyDict_of_id entry hid]

/-- C2 witness: the clamp-filter identity at the spec's example, and the
403 denial for allowed `{"admin"}` with request `"read"`. -/
theorem c2_witness :
    _clamp_scopes (pySplitWs "read write delete") ["read", "write"] =
      (pySplitWs "read write delete").filter
        (fun s => (["read", "write"]).contains s)
    ∧ broker_m2m_token none
        [("svc", { id := some "i", secret := some "s",
                   allowed_scopes := some ["admin"] })]
        { client := "svc", scope := some "read" } none
        (fun _ => .ok "token") =
        .httpError 403 "requested scopes not allowed" :=
  ⟨c2_scope_clamping.1 "read write delete" ["read", "write"],
   c2_scope_clamping.2.2 none none
     [("svc", { id := some "i", secret := some "s",
                allowed_scopes := some ["admin"] })]
     { client := "svc", scope := some "read" }
     { id := some "i", secret := some "s", allowed_scopes := some ["admin"] }
     (fun _ => .ok "token")
     (by decide) (by decide) (by decide) (by decide) (by decide) (by decide)⟩

/-- C7 counterexample.  A present-but-empty registry entry `{}` is a
"registry entry missing id or secret", yet Python's `if not entry:`
treats the falsy empty dict like a missing one: the broker fails with
400 "unknown client", not with 500 "client misconfigured". -/
theorem c7_counterexample :
    broker_m2m_token none [("svc", ({} : ClientCfg))] { client := "svc" }
        none (fun _ => .ok "t") = .httpError 400 "unknown client"
    ∧ broker_m2m_token none [("svc", ({} : ClientCfg))] { client := "svc" }
        none (fun _ => .ok "t") ≠
      .httpError 500 "client misconfigured (no id/secret)" := by
  constructor <;> decide

/-- C7 (amended): the broker's error mapping — an unknown logical client
name gives 400 "unknown client", and a present-but-empty registry entry
is treated identically (400, by dict truthiness); a NON-EMPTY registry
entry with a falsy id or secret gives 500 "client misconfigured (no
id/secret)"; an upstream HTTP error status is propagated with the
upstream's status and body verbatim; a network-level failure gives
502 "hydra unreachable: ...". -/
theorem c7_error_mapping :
    (∀ (gk xk : Option String) (registry : Registry) (body : M2MRequest)
        (upstream : TokenData → UpstreamOutcome),
      _auth_guard gk xk = false →
      List.lookup body.client registry = none →
      broker_m2m_token gk registry body xk upstream =
        .httpError 400 "unknown client")
    ∧ (∀ (gk xk : Option String) (registry : Registry) (body : M2MRequest)
        (entry : ClientCfg) (upstream : TokenData → UpstreamOutcome),
      _auth_guard gk xk = false →
      List.lookup body.client registry = some entry →
      pyTruthyDict entry = false →
      broker_m2m_token gk registry body xk upstream =
        .httpError 400 "unknown client")
    ∧ (∀ (gk xk : Option String) (registry : Registry) (body : M2MRequest)
        (entry : ClientCfg) (upstream : TokenData → UpstreamOutcome),
      _auth_guard gk xk = false →
      List.lookup body.client registry = some entry →
      pyTruthyDict entry = true →
      (pyTruthyS entry.id = false ∨ pyTruthyS entry.secret = false) →
      broker_m2m_token gk registry body xk upstream =
        .httpError 500 "client misconfigured (no id/secret)")
    ∧ (∀ (gk xk : Option String) (registry : Registry) (body : M2MRequest)
        (d : TokenData) (status : Nat) (respBody : String)
        (upstream : TokenData → UpstreamOutcome),
      brokerRequestData gk registry body xk = .ok d →
      upstream d = .statusError status respBody →
      broker_m2m_token gk registry body xk upstream =
        .httpError status respBody)
    ∧ (∀ (gk xk : Option String) (registry : Registry) (body : M2MRequest)
        (d : TokenData) (msg : String)
        (upstream : TokenData → UpstreamOutcome),
      brokerRequestData gk registry body xk = .ok d →
      upstream d = .networkError msg →
      broker_m2m_token gk registry body xk upstream =
        .httpError 502 ("hydra unreachable: " ++ msg)) := by
  refine ⟨?_, ?_, ?_, ?_, ?_⟩
  · intro gk xk registry body upstream hguard hlook
    unfold broker_m2m_token brokerRequestData
    rw [hlook]
    simp [hguard]
  · intro gk xk registry body entry upstream hguard hlook hfalsy
    unfold broker_m2m_token brokerRequestData
    rw [hlook]
    simp [hguard, hfalsy]
  · intro gk xk registry body entry upstream hguard hlook htruthy hbad
    unfold broker_m2m_token brokerRequestData
    rw [hlook]
    rcases hbad with h | h <;> simp [hguard, htruthy, h]
  · intro gk xk registry body d status respBody upstream hprep hup
    unfold broker_m2m_token
    rw [hprep]
    dsimp only
    rw [hup]
  · intro gk xk registry body d msg upstream hprep hup
    unfold broker_m2m_token
    rw [hprep]
    dsimp only
    rw [hup]

/-- C7 witness: each of the five error mappings at a concrete input,
including the empty registry entry `{}` that forces the amendment. -/
theorem c7_witness :
    broker_m2m_token none [] { client := "nobody" } none (fun _ => .ok "t") =
      .httpError 400 "unknown client"
    ∧ broker_m2m_token none [("svc", ({} : ClientCfg))]
        { client := "svc" } none (fun _ => .ok "t") =
      .httpError 400 "unknown client"
    ∧ broker_m2m_token none [("svc", { id := some "i" })]
        { client := "svc" } none (fun _ => .ok "t") =
      .httpError 500 "client misconfigured (no id/secret)"
    ∧ broker_m2m_token none [("svc", { id := some "i", secret := some "s" })]
        { client := "svc" } none (fun _ => .statusError 418 "teapot") =
      .httpError 418 "teapot"
    ∧ broker_m2m_token none [("svc", { id := some "i", secret := some "s" })]
        { client := "svc" } none (fun _ => .networkError "timeout") =
      .httpError 502 ("hydra unreachable: " ++ "timeout") :=
  ⟨c7_error_mapping.1 none none [] { client := "nobody" } (fun _ => .ok "t")
     (by decide) (by decide),
   c7_error_mapping.2.1 none none [("svc", ({} : ClientCfg))]
     { client := "svc" } ({} : ClientCfg) (fun _ => .ok "t")
     (by decide) (by decide) (by decide),
   c7_error_mapping.2.2.1 none none [("svc", { id := some "i" })]
     { client := "svc" } { id := some "i" } (fun _ => .ok "t")
     (by decide) (by decide) (by decide) (Or.inr (by decide)),
   c7_error_mapping.2.2.2.1 none none
     [("svc", { id := some "i", secret := some "s" })] { client := "svc" }
     { grant_type := "client_credentials", client_id := "i",
       client_secret := "s", scope := none, audience := none }
     418 "teapot" (fun _ => .statusError 418 "teapot") rfl rfl,
   c7_error_mapping.2.2.2.2 none none
     [("svc", { id := some "i", secret := some "s" })] { client := "svc" }
     { grant_type := "client_credentials", client_id := "i",
       client_secret := "s", scope := none, audience := none }
     "timeout" (fun _ => .networkError "timeout") rfl rfl⟩

/-! ## Claims about the bearer verifier -/

/-- Evaluation of `verify_bearer` past the header checks, with a warm
cache: the call is the two-attempt decode cascade. -/
theorem verify_bearer_cached_eval (issuer : String) (now : Nat) (up j0 : Jwks)
    (tokenOf : String → TokenRec) (auth tokStr : String)
    (hne : auth ≠ "")
    (hpre : pyStartsWith (lowerS auth) "bearer " = true)
    (htok : (pySplitWs auth).get? 1 = some tokStr) :
    verify_bearer issuer now up tokenOf (some j0) (some auth) =
      (match _decode now (tokenOf tokStr) j0 with
       | .ok claims => ⟨issuerExpChecks issuer now claims, some j0, 0, 1⟩
       | .error _ =>
           match _decode now (tokenOf tokStr) up with
           | .ok claims => ⟨issuerExpChecks issuer now claims, some up, 1, 2⟩
           | .error _ => ⟨.httpError 401 "invalid token", some up, 1, 2⟩) := by
  unfold verify_bearer
  rw [if_neg]
  · simp only [Option.getD_some]
    rw [htok]
    rfl
  · intro hc
    rcases hc with h | h
    · exact h (by simp [pyTruthyS, hne])
    · exact h (by simpa using hpre)

/-- C4 (code bug): a token whose signature verifies against both the
cached and the refetched key set, whose issuer is correct, but whose
`exp` is in the past, does NOT fail with "expired": jose's `jwt.decode`
validates `exp` by default and raises `ExpiredSignatureError`, a
`JWTError`, so the token takes the invalid-token path — including one
spurious JWKS refetch — and `verify_bearer` returns 401 "invalid token".
The code's own explicit `exp` check (detail "expired") is unreachable
for such tokens. -/
theorem c4_expired_token_yields_invalid_token
    (issuer : String) (now : Nat) (up j0 : Jwks)
    (tokenOf : String → TokenRec) (auth tokStr : String) (e : Nat)
    (hne : auth ≠ "")
    (hpre : pyStartsWith (lowerS auth) "bearer " = true)
    (htok : (pySplitWs auth).get? 1 = some tokStr)
    (hsig1 : (tokenOf tokStr).key ∈ j0.keys)
    (hsig2 : (tokenOf tokStr).key ∈ up.keys)
    (_hiss : (tokenOf tokStr).iss = some issuer)
    (hexp : (tokenOf tokStr).exp = some e)
    (hlt : e < now) :
    verify_bearer issuer now up tokenOf (some j0) (some auth) =
      ⟨.httpError 401 "invalid token", some up, 1, 2⟩
    ∧ (VResult.httpError 401 "invalid token" ≠ .httpError 401 "expired") := by
  refine ⟨?_, by decide⟩
  have hd1 : _decode now (tokenOf tokStr) j0 = .error .expiredSignature := by
    simp [_decode, hsig1, hexp, hlt]
  have hd2 : _decode now (tokenOf tokStr) up = .error .expiredSignature := by
    simp [_decode, hsig2, hexp, hlt]
  rw [verify_bearer_cached_eval issuer now up j0 tokenOf auth tokStr hne hpre htok,
    hd1, hd2]

/-- C4 witness: the failing input made concrete — key 1 in both key
sets, issuer matches, `exp = 50 < now = 100`. -/
theorem c4_witness :
    verify_bearer "iss" 100 ⟨[1]⟩ (fun _ => ⟨1, some "iss", some 50, "p"⟩)
        (some ⟨[1]⟩) (some "Bearer tok") =
      ⟨.httpError 401 "invalid token", some ⟨[1]⟩, 1, 2⟩
    ∧ (VResult.httpError 401 "invalid token" ≠ .httpError 401 "expired") :=
  c4_expired_token_yields_invalid_token "iss" 100 ⟨[1]⟩ ⟨[1]⟩
    (fun _ => ⟨1, some "iss", some 50, "p"⟩) "Bearer tok" "tok" 50
    (by decide) (by decide) (by decide) (by decide) (by decide)
    (by decide) (by decide) (by decide)

/-- C5: when the first decode against the cached key set fails,
`verify_bearer` performs exactly one cache invalidation + refetch and
exactly one re-verification (one fetch, two decode attempts in total);
and if the retry against the fresh key set also fails, the result is
401 "invalid token" with no further refresh. -/
theorem c5_bounded_retry
    (issuer : String) (now : Nat) (up j0 : Jwks)
    (tokenOf : String → TokenRec) (auth tokStr : String) (err1 : JoseError)
    (hne : auth ≠ "")
    (hpre : pyStartsWith (lowerS auth) "bearer " = true)
    (htok : (pySplitWs auth).get? 1 = some tokStr)
    (hfail1 : _decode now (tokenOf tokStr) j0 = .error err1) :
    (verify_bearer issuer now up tokenOf (some j0) (some auth)).fetches = 1
    ∧ (verify_bearer issuer now up tokenOf (some j0) (some auth)).decodes = 2
    ∧ (∀ err2, _decode now (tokenOf tokStr) up = .error err2 →
        verify_bearer issuer now up tokenOf (some j0) (some auth) =
          ⟨.httpError 401 "invalid token", some up, 1, 2⟩) := by
  rw [verify_bearer_cached_eval issuer now up j0 tokenOf auth tokStr hne hpre htok,
    hfail1]
  cases h2 : _decode now (tokenOf tokStr) up with
  | ok claims =>
      refine ⟨rfl, rfl, ?_⟩
      intro err2 hc
      cases hc
  | error err2 => exact ⟨rfl, rfl, fun _ _ => rfl⟩

/-- C5 witness: cached set `{1}` cannot verify a token signed with key 2;
the upstream set `{3}` cannot either, so the single retry fails
and the call reports one fetch, two decodes and "invalid token". -/
theorem c5_witness :
    (verify_bearer "iss" 100 ⟨[3]⟩ (fun _ => ⟨2, some "iss", some 200, "p"⟩)
        (some ⟨[1]⟩) (some "Bearer tok")).fetches = 1
    ∧ (verify_bearer "iss" 100 ⟨[3]⟩ (fun _ => ⟨2, some "iss", some 200, "p"⟩)
        (some ⟨[1]⟩) (some "Bearer tok")).decodes = 2
    ∧ verify_bearer "iss" 100 ⟨[3]⟩ (fun _ => ⟨2, some "iss", some 200, "p"⟩)
        (some ⟨[1]⟩) (some "Bearer tok") =
        ⟨.httpError 401 "invalid token", some ⟨[3]⟩, 1, 2⟩ := by
  have h := c5_bounded_retry "iss" 100 ⟨[3]⟩ ⟨[1]⟩
    (fun _ => ⟨2, some "iss", some 200, "p"⟩) "Bearer tok" "tok"
    .invalidSignature (by decide) (by decide) (by decide) rfl
  exact ⟨h.1, h.2.1, h.2.2 .invalidSignature rfl⟩

/-- C10: the header `"Bearer "` (the scheme word followed only by a
space) passes the case-insensitive `"bearer "` prefix check, yet
`split()` yields a single token, so `split()[1]` raises an uncaught
`IndexError`: `verify_bearer` neither returns claims nor any 401 — the
entry point is not total over header strings. -/
theorem c10_bearer_trailing_space_crashes (issuer : String) (now : Nat)
    (up : Jwks) (tokenOf : String → TokenRec) (cache : Option Jwks) :
    pyStartsWith (lowerS "Bearer ") "bearer " = true
    ∧ pySplitWs "Bearer " = ["Bearer"]
    ∧ verify_bearer issuer now up tokenOf cache (some "Bearer ") =
        ⟨.indexError, cache, 0, 0⟩ := by
  refine ⟨by decide, by decide, ?_⟩
  rfl

/-! ## Claims about the PKCE state store -/

theorem lookup_filter_ne {α : Type} (l : List (String × α)) (s : String) :
    List.lookup s (l.filter (fun e => e.1 ≠ s)) = none := by
  induction l with
  | nil => rfl
  | cons a l ih =>
      rw [List.filter_cons]
      by_cases h : a.1 = s
      · rw [if_neg (by simp [h])]
        exact ih
      · rw [if_pos (by simp [h])]
        cases a with
        | mk k v =>
            have hb : (s == k) = false :=
              beq_eq_false_iff_ne.mpr (fun hs2 => h hs2.symm)
            simp only [List.lookup]
            rw [hb]
            exact ih

theorem oauth_callback_store (clientId redirectUri : String)
    (store : StateStore) (code state : String)
    (u : ExchangeData → ExchangeOutcome) :
    (oauth_callback clientId redirectUri store code state u).2 =
      store.filter (fun e => e.1 ≠ state) := by
  unfold oauth_callback _pop_state
  cases List.lookup state store with
  | none => rfl
  | some st =>
      cases st with
      | mk verifier created =>
          dsimp only
          cases u { grant_type := "authorization_code", code := code,
                    redirect_uri := redirectUri, client_id := clientId,
                    code_verifier := verifier } <;> rfl

/-- C6: a state token is consumable at most once.  Whatever the first
callback's exchange outcome, its lookup removes the entry: the state
token is no longer in the store, and a second callback with the same
state fails with 400 "Invalid or expired state". -/
theorem c6_state_consumed_at_most_once (clientId redirectUri : String)
    (store : StateStore) (code1 code2 state : String)
    (u1 u2 : ExchangeData → ExchangeOutcome) :
    List.lookup state
        (oauth_callback clientId redirectUri store code1 state u1).2 = none
    ∧ (oauth_callback clientId redirectUri
        (oauth_callback clientId redirectUri store code1 state u1).2
        code2 state u2).1 = .httpError 400 "Invalid or expired state" := by
  have h1 : List.lookup state
      (oauth_callback clientId redirectUri store code1 state u1).2 = none := by
    rw [oauth_callback_store]
    exact lookup_filter_ne store state
  refine ⟨h1, ?_⟩
  rw [oauth_callback_store clientId redirectUri store code1 state u1]
  unfold oauth_callback _pop_state
  rw [lookup_filter_ne]

/-! ## Claims about the proxy layer -/

/-- Is a single header one of the hop-by-hop names `connection`,
`transfer-encoding` or `upgrade` (case-insensitively)? -/
def isBanned (h : String × String) : Bool :=
  lowerS h.1 = "connection" || lowerS h.1 = "transfer-encoding"
    || lowerS h.1 = "upgrade"

/-- Does a header list relay one of the three banned hop-by-hop names? -/
def relaysBanned (hs : List (String × String)) : Bool := hs.any isBanned

theorem isBanned_eq_false_of_req (h : String × String)
    (hnc : reqHopByHop.contains (lowerS h.1) = false) :
    isBanned h = false := by
  unfold isBanned
  rw [Bool.or_eq_false_iff, Bool.or_eq_false_iff]
  refine ⟨⟨?_, ?_⟩, ?_⟩ <;>
    · rw [decide_eq_false_iff_not]
      intro h1
      rw [h1] at hnc
      exact absurd hnc (by decide)

theorem isBanned_eq_false_of_resp (h : String × String)
    (hnc : respHopByHop.contains (lowerS h.1) = false) :
    isBanned h = false := by
  unfold isBanned
  rw [Bool.or_eq_false_iff, Bool.or_eq_false_iff]
  refine ⟨⟨?_, ?_⟩, ?_⟩ <;>
    · rw [decide_eq_false_iff_not]
      intro h1
      rw [h1] at hnc
      exact absurd hnc (by decide)

theorem relaysBanned_fwdHeaders (hs : List (String × String)) :
    relaysBanned (fwdHeaders hs) = false := by
  rw [relaysBanned, List.any_eq_false]
  intro h hmem
  rw [fwdHeaders, List.mem_filter] at hmem
  rcases hmem with ⟨-, hkeep⟩
  have hnc : reqHopByHop.contains (lowerS h.1) = false := by simpa using hkeep
  simp [isBanned_eq_false_of_req h hnc]

theorem relaysBanned_outHeaders (hs : List (String × String)) :
    relaysBanned (outHeaders hs) = false := by
  rw [relaysBanned, List.any_eq_false]
  intro h hmem
  rw [outHeaders, List.mem_filter] at hmem
  rcases hmem with ⟨-, hkeep⟩
  have hnc : respHopByHop.contains (lowerS h.1) = false := by simpa using hkeep
  simp [isBanned_eq_false_of_resp h hnc]

theorem relaysBanned_locationRewrite (hs : List (String × String))
    (hok : relaysBanned hs = false) :
    relaysBanned (applyLocationRewrite hs) = false := by
  unfold applyLocationRewrite
  cases List.lookup "location" hs with
  | none => exact hok
  | some l =>
      dsimp only
      by_cases hl : l = ""
      · simp [hl, hok]
      · rw [if_neg hl]
        rw [relaysBanned, List.any_eq_false]
        intro h hmem
        rw [setHeader, List.mem_map] at hmem
        rcases hmem with ⟨h0, hm0, heq⟩
        rw [relaysBanned, List.any_eq_false] at hok
        by_cases hk : h0.1 = "location"
        · rw [if_pos hk] at heq
          rw [← heq]
          have hf : isBanned ("location", rewriteLocation l) = false := rfl
          simp [hf]
        · rw [if_neg hk] at heq
          rw [← heq]
          exact hok h0 hm0

/-- C9: neither proxy relays `connection`, `transfer-encoding` or
`upgrade` in either direction — the forwarded request headers and the
returned response headers are free of all three, case-insensitively —
and each proxy returns the upstream's status code and body unchanged,
modifying only headers. -/
theorem c9_proxy_header_hygiene :
    (∀ hs : List (String × String), relaysBanned (fwdHeaders hs) = false)
    ∧ (∀ (req : ProxyRequest) (u : ProxyRequest → HttpxResponse),
        relaysBanned (proxy_authui req u).headers = false
        ∧ relaysBanned (proxy_oauth2 req u).headers = false)
    ∧ (∀ (req : ProxyRequest) (u : ProxyRequest → HttpxResponse),
        (proxy_authui req u).status =
            (u { req with headers := fwdHeaders req.headers }).status
        ∧ (proxy_authui req u).content =
            (u { req with headers := fwdHeaders req.headers }).content
        ∧ (proxy_oauth2 req u).status =
            (u { req with headers := fwdHeaders req.headers }).status
        ∧ (proxy_oauth2 req u).content =
            (u { req with headers := fwdHeaders req.headers }).content) := by
  refine ⟨relaysBanned_fwdHeaders, ?_, ?_⟩
  · intro req u
    exact ⟨relaysBanned_outHeaders _,
      relaysBanned_locationRewrite _ (relaysBanned_outHeaders _)⟩
  · intro req u
    exact ⟨rfl, rfl, rfl, rfl⟩

/-! ### `str.replace` lemmas for the Location rewrite -/

theorem pyReplaceFuel_of_not_occurs (pat new : List Char) :
    ∀ (s : List Char) (fuel : Nat), occursIn pat s = false → s.length ≤ fuel →
      pyReplaceFuel pat new fuel s = s := by
  intro s
  induction s with
  | nil => intro fuel _ _; cases fuel <;> rfl
  | cons c rest ih =>
      intro fuel hocc hlen
      cases fuel with
      | zero => simp at hlen
      | succ f =>
          rw [occursIn, Bool.or_eq_false_iff] at hocc
          rw [pyReplaceFuel, if_neg (by simp [hocc.1])]
          rw [ih f hocc.2 (by simpa using hlen)]

theorem pyReplaceFuel_head (p : Char) (pt new rest : List Char)
    (hocc : occursIn (p :: pt) rest = false) (fuel : Nat)
    (hlen : ((p :: pt) ++ rest).length ≤ fuel) :
    pyReplaceFuel (p :: pt) new fuel ((p :: pt) ++ rest) = new ++ rest := by
  cases fuel with
  | zero => simp at hlen
  | succ f =>
      rw [List.cons_append, pyReplaceFuel]
      rw [if_pos (by rw [← List.cons_append]; simp [List.isPrefixOf_iff_prefix])]
      have hd : (pt ++ rest).drop ((p :: pt).length - 1) = rest := by simp
      rw [hd]
      rw [pyReplaceFuel_of_not_occurs (p :: pt) new rest f hocc
        (by simp at hlen; omega)]

theorem isPrefixOf_append_false (p s t : List Char)
    (hps : p.isPrefixOf s = false) (hlen : p.length ≤ s.length) :
    p.isPrefixOf (s ++ t) = false := by
  by_contra hc
  rw [Bool.not_eq_false, List.isPrefixOf_iff_prefix] at hc
  have h1 : p = (s ++ t).take p.length := List.prefix_iff_eq_take.mp hc
  rw [List.take_append_eq_append_take, Nat.sub_eq_zero_of_le hlen,
    List.take_zero, List.append_nil] at h1
  have h2 : p <+: s := h1 ▸ List.take_prefix p.length s
  have h3 : p.isPrefixOf s = true := List.isPrefixOf_iff_prefix.mpr h2
  rw [h3] at hps
  exact Bool.noConfusion hps

theorem pyReplace_prefix_append (pre rest new : String)
    (hp : pre.data ≠ [])
    (hocc : occursIn pre.data rest.data = false) :
    pyReplace (pre ++ rest) pre new = new ++ rest := by
  apply String.ext
  show pyReplaceFuel pre.data new.data (pre ++ rest).data.length (pre ++ rest).data
      = (new ++ rest).data
  rw [String.data_append, String.data_append]
  cases hd : pre.data with
  | nil => exact absurd hd hp
  | cons p pt =>
      rw [hd] at hocc
      exact pyReplaceFuel_head p pt new.data rest.data hocc _ le_rfl

/-- C3 counterexample.  A Location that starts with the internal origin
and repeats it in its query string: `str.replace` substitutes every
occurrence, so the remainder of the URL (here the query) is changed too,
not left unchanged as the claim states. -/
theorem c3_counterexample :
    rewriteLocation "http://hydra:4444/oauth2/auth?next=http://hydra:4444/x" =
      "http://localhost:8000/oauth2/oauth2/auth?next=http://localhost:8000/oauth2/x"
    ∧ rewriteLocation "http://hydra:4444/oauth2/auth?next=http://hydra:4444/x" ≠
      "http://localhost:8000/oauth2" ++ "/oauth2/auth?next=http://hydra:4444/x" := by
  constructor <;> decide

/-- C3 (amended): the rewrite replaces every occurrence of the internal
origin `http://hydra:4444`, not only the prefix; when the remainder of
the URL contains no further occurrence of that origin, the effect is the
claimed one — only the prefix is rewritten to the gateway-public base
and the remainder (path and query) is unchanged — and a Location whose
prefix is not a recognized internal address passes through unmodified. -/
theorem c3_location_rewrite :
    (∀ rest : String,
      occursIn ("http://hydra:4444").data rest.data = false →
      rewriteLocation ("http://hydra:4444" ++ rest) =
        "http://localhost:8000/oauth2" ++ rest)
    ∧ (∀ loc : String,
        pyStartsWith loc "http://hydra:4444" = false →
        pyStartsWith loc "http://login-consent:3002" = false →
        rewriteLocation loc = loc) := by
  constructor
  · intro rest hocc
    unfold rewriteLocation
    have h1 : pyStartsWith ("http://hydra:4444" ++ rest) "http://hydra:4444"
        = true := by
      unfold pyStartsWith
      rw [String.data_append]
      simp [List.isPrefixOf_iff_prefix]
    rw [if_pos h1]
    rw [pyReplace_prefix_append "http://hydra:4444" rest
      "http://localhost:8000/oauth2" (by decide) hocc]
    have h2 : pyStartsWith ("http://localhost:8000/oauth2" ++ rest)
        "http://login-consent:3002" = false := by
      unfold pyStartsWith
      rw [String.data_append]
      exact isPrefixOf_append_false _ _ _ (by decide) (by decide)
    rw [if_neg (by simp [h2])]
  · intro loc hn1 hn2
    unfold rewriteLocation
    rw [if_neg (by simp [hn1, hn2])]
    rw [if_neg (by simp [hn1])]

/-- C3 witness: the amended rewrite at a concrete Location whose
remainder is clean, and the pass-through at an external URL. -/
theorem c3_witness :
    rewriteLocation ("http://hydra:4444" ++ "/oauth2/auth?login_challenge=abc") =
      "http://localhost:8000/oauth2" ++ "/oauth2/auth?login_challenge=abc"
    ∧ rewriteLocation "https://example.org/callback" =
      "https://example.org/callback" :=
  ⟨c3_location_rewrite.1 "/oauth2/auth?login_challenge=abc" (by decide),
   c3_location_rewrite.2 "https://example.org/callback" (by decide) (by decide)⟩

/-! ### base64url lemmas for the PKCE claim -/

theorem b64urlNoPad_length : ∀ bs : List Nat,
    (b64urlNoPad bs).length = (4 * bs.length + 2) / 3
  | [] => by simp [b64urlNoPad]
  | [b1] => by simp [b64urlNoPad]
  | [b1, b2] => by simp [b64urlNoPad]
  | b1 :: b2 :: b3 :: rest => by
      rw [b64urlNoPad]
      simp only [List.length_cons]
      rw [b64urlNoPad_length rest]
      omega

theorem b64char_ne_pad (n : Nat) : b64char n ≠ '=' := by
  unfold b64char List.getD
  cases h : b64chars.get? n with
  | none => decide
  | some c =>
      have hm : c ∈ b64chars := List.get?_mem h
      have hall : ∀ x ∈ b64chars, x ≠ '=' := by decide
      simpa using hall c hm

theorem b64urlNoPad_no_pad : ∀ bs : List Nat,
    (b64urlNoPad bs).all (fun c => c ≠ '=') = true
  | [] => rfl
  | [b1] => by simp [b64urlNoPad, b64char_ne_pad]
  | [b1, b2] => by simp [b64urlNoPad, b64char_ne_pad]
  | b1 :: b2 :: b3 :: rest => by
      have ih := b64urlNoPad_no_pad rest
      rw [b64urlNoPad]
      simp only [List.all_cons, Bool.and_eq_true]
      refine ⟨?_, ?_, ?_, ?_, ih⟩ <;> simp [b64char_ne_pad]

/-- C8: the `code_challenge` parameter `oauth_login` sends to the
authorization endpoint equals `base64url(SHA-256(verifier))` with the
padding stripped, recomputed independently from the generated verifier;
and the code verifier generated from the default 32 random bytes is a
43-character base64url string with no `=` padding. -/
theorem c8_pkce_challenge (sha256digest : String → List Nat)
    (clientId redirectUri scope : String) (audience : Option String)
    (verifierBytes stateBytes : List Nat) (store : StateStore) (now : Nat)
    (hvb : verifierBytes.length = 32) :
    List.lookup "code_challenge"
        (oauth_login clientId redirectUri scope audience sha256digest
          verifierBytes stateBytes store now).1 =
      some (specRecomputedChallenge sha256digest (new_code_verifier verifierBytes))
    ∧ (new_code_verifier verifierBytes).length = 43
    ∧ (new_code_verifier verifierBytes).data.all (fun c => c ≠ '=') = true := by
  refine ⟨?_, ?_, ?_⟩
  · unfold oauth_login
    cases audience with
    | none =>
        simp [List.lookup, specRecomputedChallenge, to_code_challenge_s256]
    | some a =>
        by_cases ha : a = ""
        · simp [ha, List.lookup, specRecomputedChallenge, to_code_challenge_s256]
        · simp [ha, List.lookup, specRecomputedChallenge, to_code_challenge_s256]
  · show (b64urlNoPad verifierBytes).length = 43
    rw [b64urlNoPad_length, hvb]
  · show (b64urlNoPad verifierBytes).all (fun c => c ≠ '=') = true
    exact b64urlNoPad_no_pad verifierBytes

/-- C8 witness: concrete hash function and 32 concrete random bytes. -/
theorem c8_witness :
    List.lookup "code_challenge"
        (oauth_login "gate-client" "http://localhost:3000/callback"
          "openid offline" none (fun _ => List.range 32)
          (List.range 32) (List.range 16) [] 0).1 =
      some (specRecomputedChallenge (fun _ => List.range 32)
        (new_code_verifier (List.range 32)))
    ∧ (new_code_verifier (List.range 32)).length = 43
    ∧ (new_code_verifier (List.range 32)).data.all (fun c => c ≠ '=') = true :=
  c8_pkce_challenge (fun _ => List.range 32) "gate-client"
    "http://localhost:3000/callback" "openid offline" none
    (List.range 32) (List.range 16) [] 0 (by decide)

end GateLite
